import Mathlib

/-!
Verification of the RecruitFlow candidate-job matching and interview-workflow
engine against its natural-language specification.

The development shallowly embeds the Python source:
* `utils/database.py` (`DatabaseManager`) becomes a pure state type `DB` with
  the table rows as structures and each method as a state-passing function.
* `utils/agents.py` (`RecruitingAgent.calculate_match_score`,
  `InterviewScheduler._generate_email_template` / `generate_interview_email`)
  becomes functions over an oracle describing the outcomes of the external
  completion calls (the Groq client is an external collaborator; each call
  either raises or yields a parsed JSON value).
* `app.py` batch orchestration (`match_candidates_to_jobs`,
  `process_candidate_cvs`, and the single-file upload branch) becomes folds
  over the same state.

Modelling conventions:
* JSON values parsed by `json.loads` are the inductive `Json`; a JSON object
  is an association list (`json.loads` deduplicates keys keeping the last, so
  lookup takes the last occurrence).
* The external completion+parse step is modelled as `Option`/`Except`: `none`
  (or `.error`) is the exception path of the surrounding `try`, `some o` a
  successfully parsed JSON object.  The prompts instruct the model to return
  a JSON object, so object-shaped responses are the modelled success case.
* `created_at` (`TIMESTAMP DEFAULT CURRENT_TIMESTAMP`) is modelled as a
  strictly increasing logical clock on the store, so `ORDER BY created_at`
  never sees ties.
* SQL `ORDER BY ... DESC` is modelled by an insertion sort with the SQLite
  comparison on stored values (storage-class rank, then numeric value, then
  text); `NULL < numbers < text`.  Python `True`/`False` bind as integers.
-/

namespace RecruitFlow

/-- A parsed JSON value, as produced by `json.loads`. -/
inductive Json where
  | null : Json
  | bool : Bool → Json
  | num : Rat → Json
  | str : String → Json
  | arr : List Json → Json
  | obj : List (String × Json) → Json

/-- A parsed JSON object (Python `dict`), as the agent code receives it. -/
abbrev JObj := List (String × Json)

/-- Python truthiness of a parsed JSON value (`if not job_summary: continue`,
`if not candidate_data: continue`, `json.dumps(x) if x else None`). -/
def jsonTruthy : Json → Bool
  | Json.null => false
  | Json.bool b => b
  | Json.num q => q != 0
  | Json.str s => s != ""
  | Json.arr xs => !xs.isEmpty
  | Json.obj fs => !fs.isEmpty

/-- Python `'k' in d` for a dict. -/
def hasKey (o : JObj) (k : String) : Bool :=
  o.any (fun p => p.1 == k)

/-- Python `d['k']` for a dict; `json.loads` keeps the last duplicate key. -/
def jlookup (o : JObj) (k : String) : Option Json :=
  (o.reverse.find? (fun p => p.1 == k)).map (·.2)

/-- Insertion step of the sort used to model SQL `ORDER BY`. -/
def insertBy {α : Type} (le : α → α → Bool) (x : α) : List α → List α
  | [] => [x]
  | y :: ys => if le x y then x :: y :: ys else y :: insertBy le x ys

/-- Insertion sort used to model SQL `ORDER BY` (comparison as a total
boolean preorder; rows comparing equal keep no particular order, as in SQL). -/
def sortBy {α : Type} (le : α → α → Bool) : List α → List α
  | [] => []
  | x :: xs => insertBy le x (sortBy le xs)

/-- SQLite storage-class rank of a stored value: `NULL` < numbers < text.
`arr`/`obj` cannot actually be bound as SQL parameters (the driver raises);
they are given the top rank and never occur in any store built here. -/
def sqliteRank : Json → Nat
  | Json.null => 0
  | Json.bool _ => 1
  | Json.num _ => 1
  | Json.str _ => 2
  | Json.arr _ => 3
  | Json.obj _ => 3

/-- Numeric value used by SQLite to compare within the numeric storage class
(Python booleans bind as the integers 0/1). -/
def sqliteNum : Json → Rat
  | Json.bool b => if b then 1 else 0
  | Json.num q => q
  | _ => 0

/-- Text value used by SQLite to compare within the text storage class. -/
def sqliteStr : Json → String
  | Json.str s => s
  | _ => ""

/-- Lexicographic boolean `≤` on rank, then numeric value, then text value. -/
def lex3Le (x y : Nat × Rat × String) : Bool :=
  decide (x.1 < y.1) ||
    (decide (x.1 = y.1) &&
      (decide (x.2.1 < y.2.1) ||
        (decide (x.2.1 = y.2.1) && decide (x.2.2 ≤ y.2.2))))

/-- SQLite ordering on stored values, used by `ORDER BY match_score`. -/
def sqliteLe (a b : Json) : Bool :=
  lex3Le (sqliteRank a, sqliteNum a, sqliteStr a) (sqliteRank b, sqliteNum b, sqliteStr b)

/-- Row of the `jobs` table.  `summary` is the TEXT column holding
`json.dumps` of the summarizer's result, or NULL; since `dumps`/`loads`
round-trips, the column is modelled as the JSON value itself. -/
structure JobRow where
  id : Nat
  title : String
  description : String
  summary : Option Json
  created_at : Nat

/-- Row of the `candidates` table.  `extracted_data` is the TEXT column
holding `json.dumps` of the extraction result, modelled as the value.
`name` is modelled as optional: `basic_info.get('name', pdf_path.stem)`
never falls back to the stem because `extract_candidate_info` always puts a
`'name'` key (possibly `None`) in its dict, so `None` can reach the INSERT. -/
structure CandidateRow where
  id : Nat
  name : Option String
  email : Option String
  phone : Option String
  cv_path : String
  extracted_data : Option Json
  created_at : Nat

/-- Row of the `matches` table.  `match_score` is the raw value taken from
the scoring response and handed to `add_match` (a REAL column; the code
passes the parsed JSON field through unchanged). -/
structure MatchRow where
  id : Nat
  job_id : Nat
  candidate_id : Nat
  match_score : Json
  is_shortlisted : Bool
  interview_scheduled : Bool
  interview_date : Option String
  feedback : Option String
  created_at : Nat

/-- The persistent store behind `DatabaseManager`: the three tables, the
AUTOINCREMENT counters, and the logical `created_at` clock. -/
structure DB where
  jobs : List JobRow
  candidates : List CandidateRow
  «matches» : List MatchRow
  next_job_id : Nat
  next_candidate_id : Nat
  next_match_id : Nat
  clock : Nat

/-- The freshly initialised store (`_initialize_database` on a new file). -/
def DB.empty : DB :=
  { jobs := [], candidates := [], «matches» := [],
    next_job_id := 1, next_candidate_id := 1, next_match_id := 1, clock := 0 }

/-- `DatabaseManager.add_job`: INSERT returning `lastrowid`. -/
def add_job (db : DB) (title description : String) (summary : Option Json) : Nat × DB :=
  let row : JobRow :=
    { id := db.next_job_id, title := title, description := description,
      summary := summary, created_at := db.clock }
  (db.next_job_id,
    { db with jobs := db.jobs ++ [row],
              next_job_id := db.next_job_id + 1, clock := db.clock + 1 })

/-- `DatabaseManager.get_jobs`: `SELECT * FROM jobs ORDER BY created_at DESC`. -/
def get_jobs (db : DB) : List JobRow :=
  sortBy (fun a b => decide (b.created_at ≤ a.created_at)) db.jobs

/-- `DatabaseManager.add_candidate`: INSERT returning `lastrowid`. -/
def add_candidate (db : DB) (name : Option String) (cv_path : String)
    (extracted_data : Option Json) (email phone : Option String) : Nat × DB :=
  let row : CandidateRow :=
    { id := db.next_candidate_id, name := name, email := email, phone := phone,
      cv_path := cv_path, extracted_data := extracted_data, created_at := db.clock }
  (db.next_candidate_id,
    { db with candidates := db.candidates ++ [row],
              next_candidate_id := db.next_candidate_id + 1, clock := db.clock + 1 })

/-- `DatabaseManager.get_candidates`:
`SELECT * FROM candidates ORDER BY created_at DESC`. -/
def get_candidates (db : DB) : List CandidateRow :=
  sortBy (fun a b => decide (b.created_at ≤ a.created_at)) db.candidates

/-- `DatabaseManager.add_match`: INSERT of `(job_id, candidate_id,
match_score)` with the workflow columns at their schema defaults. -/
def add_match (db : DB) (job_id candidate_id : Nat) (match_score : Json) : Nat × DB :=
  let row : MatchRow :=
    { id := db.next_match_id, job_id := job_id, candidate_id := candidate_id,
      match_score := match_score, is_shortlisted := false,
      interview_scheduled := false, interview_date := none, feedback := none,
      created_at := db.clock }
  (db.next_match_id,
    { db with «matches» := db.matches ++ [row],
              next_match_id := db.next_match_id + 1, clock := db.clock + 1 })

/-- Python truthiness of an optional integer argument (`if job_id and
candidate_id`, `elif job_id`, `elif candidate_id`): `None` and `0` are falsy. -/
def truthyId : Option Nat → Bool
  | none => false
  | some n => n != 0

/-- `JOIN candidates c ON m.candidate_id = c.id`: one output row per
matching candidate row (the projected name/email columns are not modelled;
no claim mentions them). -/
def joinCandidates (db : DB) (ms : List MatchRow) : List MatchRow :=
  ms.flatMap (fun m => (db.candidates.filter (fun c => c.id == m.candidate_id)).map (fun _ => m))

/-- `JOIN jobs j ON m.job_id = j.id`, likewise. -/
def joinJobs (db : DB) (ms : List MatchRow) : List MatchRow :=
  ms.flatMap (fun m => (db.jobs.filter (fun j => j.id == m.job_id)).map (fun _ => m))

/-- `DatabaseManager.get_matches` with its four branches: both ids (no
ORDER BY, table order), job only (`ORDER BY m.match_score DESC`), candidate
only (`ORDER BY m.match_score DESC`), neither (`ORDER BY m.created_at DESC`). -/
def get_matches (db : DB) (job_id candidate_id : Option Nat) : List MatchRow :=
  if truthyId job_id && truthyId candidate_id then
    db.matches.filter (fun m => some m.job_id == job_id && some m.candidate_id == candidate_id)
  else if truthyId job_id then
    sortBy (fun a b => sqliteLe b.match_score a.match_score)
      (joinCandidates db (db.matches.filter (fun m => some m.job_id == job_id)))
  else if truthyId candidate_id then
    sortBy (fun a b => sqliteLe b.match_score a.match_score)
      (joinJobs db (db.matches.filter (fun m => some m.candidate_id == candidate_id)))
  else
    sortBy (fun a b => decide (b.created_at ≤ a.created_at))
      (joinJobs db (joinCandidates db db.matches))

/-- `DatabaseManager.update_shortlist_status`:
`UPDATE matches SET is_shortlisted = ? WHERE id = ?`. -/
def update_shortlist_status (db : DB) (match_id : Nat) (is_shortlisted : Bool) : DB :=
  { db with «matches» := db.matches.map (fun m =>
      if m.id == match_id then { m with is_shortlisted := is_shortlisted } else m) }

/-- `DatabaseManager.schedule_interview`:
`UPDATE matches SET interview_scheduled = TRUE, interview_date = ? WHERE id = ?`. -/
def schedule_interview (db : DB) (match_id : Nat) (interview_date : String) : DB :=
  { db with «matches» := db.matches.map (fun m =>
      if m.id == match_id then
        { m with interview_scheduled := true, interview_date := some interview_date }
      else m) }

/-- `DatabaseManager.add_feedback`:
`UPDATE matches SET feedback = ? WHERE id = ?`. -/
def add_feedback (db : DB) (match_id : Nat) (feedback : String) : DB :=
  { db with «matches» := db.matches.map (fun m =>
      if m.id == match_id then { m with feedback := some feedback } else m) }

/-- `RecruitingAgent.calculate_match_score`: the completion call plus
`json.loads` are one `try` block; its outcome is the argument.  `none` is
the exception path, which `except`s into the literal `{"match_score": 0.0}`;
`some o` is the parsed response object, returned as-is (no validation, no
clamping).  (A response parsing to a non-object does not raise here, but
makes the caller's `'match_score' in match_result` raise, aborting the
caller's whole batch; the prompt demands a single JSON object, so responses
are modelled as object-or-exception.) -/
def calculate_match_score (response : Option JObj) : JObj :=
  match response with
  | none => [("match_score", Json.num 0)]
  | some o => o

/-- Outcome oracle for the scoring calls of one batch run: for the
(job id, candidate id) pair being scored, the result of the completion call
and parse (`none` = exception raised inside `calculate_match_score`). -/
abbrev Scorer := Nat → Nat → Option JObj

/-- One iteration of the inner candidate loop of
`match_candidates_to_jobs` (`app.py`): skip if a Match already exists for
the pair, skip if the candidate has no truthy `extracted_data`, otherwise
score and, if the result is truthy and has a `match_score` key, insert the
raw value via `add_match`.  (The `jlookup = none` arm is unreachable under
the `hasKey` guard.) -/
def matchPairStep (scorer : Scorer) (job : JobRow) (db : DB) (cand : CandidateRow) : DB :=
  if !(get_matches db (some job.id) (some cand.id)).isEmpty then db
  else
    match cand.extracted_data with
    | none => db
    | some cdata =>
      if !(jsonTruthy cdata) then db
      else
        let match_result := calculate_match_score (scorer job.id cand.id)
        if !match_result.isEmpty && hasKey match_result "match_score" then
          match jlookup match_result "match_score" with
          | some v => (add_match db job.id cand.id v).2
          | none => db
        else db

/-- One iteration of the outer job loop of `match_candidates_to_jobs`:
skip jobs whose stored `summary` is NULL or parses to a falsy value. -/
def matchJobStep (scorer : Scorer) (cands : List CandidateRow) (db : DB) (job : JobRow) : DB :=
  match job.summary with
  | none => db
  | some s => if !(jsonTruthy s) then db else cands.foldl (matchPairStep scorer job) db

/-- `match_candidates_to_jobs` (`app.py`): snapshot jobs and candidates once,
return early if either list is empty, then run the nested loops against the
live store. -/
def match_candidates_to_jobs (scorer : Scorer) (db : DB) : DB :=
  let jobs := get_jobs db
  let cands := get_candidates db
  if jobs.isEmpty || cands.isEmpty then db
  else jobs.foldl (matchJobStep scorer cands) db

/-- Per-resume outcome of the extraction collaborators for one source path:
the regex fields from `PDFProcessor.extract_candidate_info` (the dict always
carries the keys, each possibly `None`) and the result of
`RecruitingAgent.extract_candidate_data` (`none` = returned `None`). -/
structure CvInfo where
  name : Option String
  email : Option String
  phone : Option String
  extracted : Option Json

/-- `json.dumps(extracted_data) if extracted_data else None`: a falsy
extraction result is stored as NULL. -/
def storedExtracted : Option Json → Option Json
  | none => none
  | some j => if jsonTruthy j then some j else none

/-- One iteration of the CVs-folder loop of `process_candidate_cvs`
(`app.py`): skip the path if some candidate already has this `cv_path`,
otherwise extract and insert. -/
def candidateStep (info : String → CvInfo) (db : DB) (pdf_path : String) : DB :=
  if (get_candidates db).any (fun c => c.cv_path == pdf_path) then db
  else
    let i := info pdf_path
    (add_candidate db i.name pdf_path (storedExtracted i.extracted) i.email i.phone).2

/-- `process_candidate_cvs` (`app.py`): warn and return if the folder has no
PDFs, else process each path in order. -/
def process_candidate_cvs (info : String → CvInfo) (pdf_files : List String) (db : DB) : DB :=
  if pdf_files.isEmpty then db
  else pdf_files.foldl (candidateStep info) db

/-- The single-file upload branch of the Candidate CVs page (`app.py`,
module level): saves the file under `cv_path = CVS_FOLDER / name`, extracts,
and calls `add_candidate` unconditionally — there is no existing-`cv_path`
check on this path. -/
def upload_cv (info : String → CvInfo) (db : DB) (file_path : String) : DB :=
  let i := info file_path
  (add_candidate db i.name file_path (storedExtracted i.extracted) i.email i.phone).2

/-- Result dict of `InterviewScheduler._generate_email_template` and of
`generate_interview_email` / `_send_email`. -/
structure EmailResult where
  success : Bool
  error : Option String
  email_content : Option JObj

/-- `template["required_fields"]`, the same list for both the "interview"
and the "rejection" template. -/
def required_fields : List String := ["subject", "body"]

/-- `InterviewScheduler.max_retries` (set in `__init__`). -/
def max_retries : Nat := 3

/-- One attempt of the retry loop body: the completion call and parse either
raise (`.error` with `str(e)`), or yield a content object which is validated
to carry all `required_fields`; a miss raises
`ValueError("Missing required email fields")`, caught by the same `except`. -/
def attemptOutcome (resp : Except String JObj) : Except String JObj :=
  match resp with
  | Except.error e => Except.error e
  | Except.ok content =>
    if required_fields.all (fun f => hasKey content f) then Except.ok content
    else Except.error "Missing required email fields"

/-- The retry loop of `_generate_email_template`, with the attempt index and
the remaining attempt budget (`attempt + remaining = max_retries` at every
call).  Returns the result dict and the list of prompts sent, one per
attempt actually made — the prompt is rendered once before the loop, so
every attempt sends the same one.  The `remaining = 0` base case is the
unreachable fall-through of the Python `for` loop. -/
def genAttempts (responses : Nat → Except String JObj) (prompt : String) :
    Nat → Nat → EmailResult × List String
  | _, 0 => ({ success := false, error := none, email_content := none }, [])
  | attempt, remaining + 1 =>
    match attemptOutcome (responses attempt) with
    | Except.ok content =>
      ({ success := true, error := none, email_content := some content }, [prompt])
    | Except.error e =>
      if remaining == 0 then
        ({ success := false, error := some e, email_content := none }, [prompt])
      else
        let rest := genAttempts responses prompt (attempt + 1) remaining
        (rest.1, prompt :: rest.2)

/-- `InterviewScheduler._generate_email_template` for a valid email type:
the type-specific prompt is rendered once, then the retry loop runs with
attempt indices `0 .. max_retries - 1`.  `responses` is the outcome oracle
for the completion calls, indexed by attempt. -/
def generate_email_template (responses : Nat → Except String JObj) (prompt : String) :
    EmailResult × List String :=
  genAttempts responses prompt 0 max_retries

/-- Outcome of one call to the email transport collaborator
(`EmailSender.send_email`) as seen by `InterviewScheduler._send_email`. -/
inductive TransportOutcome where
  | ok
  | failed
  | raised (e : String)

/-- `InterviewScheduler._send_email`: returns `{'success': True}` on
transport success, otherwise a failure dict that preserves the generated
content (whether `send_email` returned `False` or raised). -/
def scheduler_send_email (content : JObj) : TransportOutcome → EmailResult
  | TransportOutcome.ok => { success := true, error := none, email_content := none }
  | TransportOutcome.failed =>
    { success := false, error := some "Email sending failed", email_content := some content }
  | TransportOutcome.raised e =>
    { success := false, error := some e, email_content := some content }

/-- Python truthiness of the optional recipient (`if candidate_email:`):
`None` and the empty string are falsy. -/
def pyTruthyStrOpt : Option String → Bool
  | none => false
  | some s => s != ""

/-- `InterviewScheduler.generate_interview_email`: generate via the template
path; on generation failure return it at once; otherwise dispatch iff a
truthy recipient is present.  The second component counts calls made to the
email transport collaborator. -/
def generate_interview_email (responses : Nat → Except String JObj) (prompt : String)
    (candidate_email : Option String) (transport : TransportOutcome) :
    EmailResult × Nat :=
  let result := (generate_email_template responses prompt).1
  if !result.success then (result, 0)
  else if pyTruthyStrOpt candidate_email then
    let send_result := scheduler_send_email (result.email_content.getD []) transport
    if !send_result.success then (send_result, 1) else (result, 1)
  else (result, 0)

/-! ### Generic list and ordering lemmas -/

theorem forall₂_map_self {α β : Type} (r : α → β → Prop) (f : α → β) :
    ∀ l : List α, (∀ x ∈ l, r x (f x)) → List.Forall₂ r l (l.map f) := by
  intro l h
  induction l with
  | nil => exact List.Forall₂.nil
  | cons x xs ih =>
    exact List.Forall₂.cons (h x (List.mem_cons_self x xs))
      (ih fun y hy => h y (List.mem_cons.mpr (Or.inr hy)))

theorem map_eq_self_of_id {α : Type} (f : α → α) :
    ∀ l : List α, (∀ x ∈ l, f x = x) → l.map f = l := by
  intro l h
  induction l with
  | nil => rfl
  | cons x xs ih =>
    simp only [List.map_cons, h x (List.mem_cons_self x xs),
      ih fun y hy => h y (List.mem_cons.mpr (Or.inr hy))]

theorem lex3Le_total (x y : Nat × Rat × String) : lex3Le x y = true ∨ lex3Le y x = true := by
  simp only [lex3Le, Bool.or_eq_true, Bool.and_eq_true, decide_eq_true_eq]
  rcases lt_trichotomy x.1 y.1 with h | h | h
  · exact Or.inl (Or.inl h)
  · rcases lt_trichotomy x.2.1 y.2.1 with h2 | h2 | h2
    · exact Or.inl (Or.inr ⟨h, Or.inl h2⟩)
    · rcases le_total x.2.2 y.2.2 with h3 | h3
      · exact Or.inl (Or.inr ⟨h, Or.inr ⟨h2, h3⟩⟩)
      · exact Or.inr (Or.inr ⟨h.symm, Or.inr ⟨h2.symm, h3⟩⟩)
    · exact Or.inr (Or.inr ⟨h.symm, Or.inl h2⟩)
  · exact Or.inr (Or.inl h)

theorem lex3Le_trans (x y z : Nat × Rat × String) :
    lex3Le x y = true → lex3Le y z = true → lex3Le x z = true := by
  simp only [lex3Le, Bool.or_eq_true, Bool.and_eq_true, decide_eq_true_eq]
  rintro (h1 | ⟨h1, h1'⟩) (h2 | ⟨h2, h2'⟩)
  · exact Or.inl (lt_trans h1 h2)
  · exact Or.inl (h2 ▸ h1)
  · exact Or.inl (h1 ▸ h2)
  · refine Or.inr ⟨h1.trans h2, ?_⟩
    rcases h1' with h1' | ⟨h1', h1''⟩ <;> rcases h2' with h2' | ⟨h2', h2''⟩
    · exact Or.inl (lt_trans h1' h2')
    · exact Or.inl (h2' ▸ h1')
    · exact Or.inl (h1' ▸ h2')
    · exact Or.inr ⟨h1'.trans h2', le_trans h1'' h2''⟩

theorem sqliteLe_total (a b : Json) : sqliteLe a b = true ∨ sqliteLe b a = true :=
  lex3Le_total _ _

theorem sqliteLe_trans (a b c : Json) :
    sqliteLe a b = true → sqliteLe b c = true → sqliteLe a c = true :=
  lex3Le_trans _ _ _

theorem mem_insertBy {α : Type} (le : α → α → Bool) (x a : α) :
    ∀ l : List α, a ∈ insertBy le x l ↔ a = x ∨ a ∈ l := by
  intro l
  induction l with
  | nil => simp [insertBy]
  | cons y ys ih =>
    by_cases h : le x y
    · simp [insertBy, h]
    · simp only [insertBy, h, Bool.false_eq_true, if_false, List.mem_cons, ih]
      tauto

theorem pairwise_insertBy {α : Type} (le : α → α → Bool)
    (htot : ∀ a b, le a b = true ∨ le b a = true)
    (htrans : ∀ a b c, le a b = true → le b c = true → le a c = true)
    (x : α) : ∀ l : List α, l.Pairwise (fun a b => le a b = true) →
      (insertBy le x l).Pairwise (fun a b => le a b = true) := by
  intro l
  induction l with
  | nil => intro _; simp [insertBy]
  | cons y ys ih =>
    intro h
    rcases List.pairwise_cons.mp h with ⟨hy, hys⟩
    by_cases hxy : le x y = true
    · rw [show insertBy le x (y :: ys) = x :: y :: ys by simp [insertBy, hxy]]
      refine List.pairwise_cons.mpr ⟨?_, h⟩
      intro z hz
      rcases List.mem_cons.mp hz with rfl | hz
      · exact hxy
      · exact htrans x y z hxy (hy z hz)
    · rw [show insertBy le x (y :: ys) = y :: insertBy le x ys by simp [insertBy, hxy]]
      refine List.pairwise_cons.mpr ⟨?_, ih hys⟩
      intro z hz
      rcases (mem_insertBy le x z ys).mp hz with rfl | hz
      · rcases htot z y with h' | h'
        · exact absurd h' hxy
        · exact h'
      · exact hy z hz

theorem pairwise_sortBy {α : Type} (le : α → α → Bool)
    (htot : ∀ a b, le a b = true ∨ le b a = true)
    (htrans : ∀ a b c, le a b = true → le b c = true → le a c = true) :
    ∀ l : List α, (sortBy le l).Pairwise (fun a b => le a b = true) := by
  intro l
  induction l with
  | nil => simp [sortBy]
  | cons x xs ih => exact pairwise_insertBy le htot htrans x _ ih

theorem mem_sortBy {α : Type} (le : α → α → Bool) (a : α) :
    ∀ l : List α, a ∈ sortBy le l ↔ a ∈ l := by
  intro l
  induction l with
  | nil => simp [sortBy]
  | cons x xs ih => simp [sortBy, mem_insertBy, ih]

theorem hasKey_jlookup (o : JObj) (k : String) (h : hasKey o k = true) :
    ∃ v, jlookup o k = some v := by
  have hx : ∃ x ∈ o.reverse, (fun p : String × Json => p.1 == k) x = true := by
    simpa [hasKey, List.any_eq_true, List.mem_reverse] using h
  have hs : (o.reverse.find? (fun p => p.1 == k)).isSome := by
    rcases hx with ⟨x, hx1, hx2⟩
    exact List.find?_isSome.mpr ⟨x, hx1, hx2⟩
  rcases Option.isSome_iff_exists.mp hs with ⟨p, hp⟩
  exact ⟨p.2, by simp [jlookup, hp]⟩

/-! ### Concrete fixtures -/

/-- A truthy structured job summary, as stored by `add_job`. -/
def exSummary : Json :=
  Json.obj [("required_skills", Json.arr [Json.str "Go", Json.str "SQL"])]

/-- A truthy structured candidate profile, as stored by `add_candidate`. -/
def exProfile : Json :=
  Json.obj [("skills", Json.arr [Json.str "Go", Json.str "SQL", Json.str "Python"])]

/-- A store holding one summarized job (id 1) and one candidate with
structured data (id 1), and no matches. -/
def exDB1 : DB :=
  (add_candidate (add_job DB.empty "Backend Engineer" "desc" (some exSummary)).2
    (some "Alice Doe") "data/cvs/alice.pdf" (some exProfile)
    (some "alice@example.com") none).2

/-- `exDB1` plus one scored, not-yet-shortlisted Match (id 1). -/
def exDB3 : DB := (add_match exDB1 1 1 (Json.num 80)).2

/-- `exDB3` with its Match shortlisted. -/
def exDB5 : DB := update_shortlist_status exDB3 1 true

/-- A scoring oracle whose response parses to `{"match_score": 137}`. -/
def scorer137 : Scorer := fun _ _ => some [("match_score", Json.num 137)]

/-- A scoring oracle whose completion call (or parse) raises every time. -/
def scorerRaise : Scorer := fun _ _ => none

/-- The claim's notion of a well-ranged persisted score: a numeric value in
[0, 100]. -/
def scoreInRange (j : Json) : Prop := ∃ q : Rat, j = Json.num q ∧ 0 ≤ q ∧ q ≤ 100

/-! ### C1 -/

/-- C1, counterexample: a raw scoring response of `{"match_score": 137}` on a
store with one summarized job and one structured candidate is persisted by
the batch as-is — the single stored Match has `match_score = 137`, which is
not in [0, 100].  Nothing clamps or rejects it. -/
theorem match_score_clamping_refuted :
    ((match_candidates_to_jobs scorer137 exDB1).matches.map (fun m => m.match_score)
        = [Json.num 137])
    ∧ ¬ scoreInRange (Json.num 137) := by
  refine ⟨rfl, ?_⟩
  rintro ⟨q, hq, _, h100⟩
  injection hq with h
  rw [← h] at h100
  norm_num at h100

/-- C1, amended: the raw `match_score` value of the scoring response is
persisted unchanged by `add_match` — for every rational `q` (including 137
and -5), the batch stores exactly `q`; no clamping or rejection into
[0, 100] happens anywhere between the scoring call and the INSERT. -/
theorem match_score_persisted_unclamped (q : Rat) :
    (match_candidates_to_jobs (fun _ _ => some [("match_score", Json.num q)]) exDB1).matches.map
        (fun m => m.match_score) = [Json.num q] := rfl

/-! ### C2 -/

/-- C2: when the scoring call raises (network error or unparseable
response), `calculate_match_score` returns the literal `{"match_score": 0.0}`
and the batch persists a Match with score 0.0 for the pair — the failure is
not reported and is stored exactly like a genuine zero score. -/
theorem failed_scoring_persists_zero_score :
    calculate_match_score none = [("match_score", Json.num 0)]
    ∧ ((match_candidates_to_jobs scorerRaise exDB1).matches.map (fun m => m.match_score)
        = [Json.num 0]) := ⟨rfl, rfl⟩

/-! ### C3 -/

/-- C3, counterexample: on a store whose only Match has
`is_shortlisted = false`, `schedule_interview` does not fail and does not
leave the Match unchanged: it sets `interview_scheduled = true` and the
interview date on that row (there is no invalid-state check anywhere in the
operation). -/
theorem schedule_interview_no_invalid_state_error :
    (exDB3.matches.map (fun m => (m.is_shortlisted, m.interview_scheduled, m.interview_date))
        = [(false, false, none)])
    ∧ ((schedule_interview exDB3 1 "2026-01-15 10:00:00").matches.map
          (fun m => (m.is_shortlisted, m.interview_scheduled, m.interview_date))
        = [(false, true, some "2026-01-15 10:00:00")]) := ⟨rfl, rfl⟩

/-- C3, amended: `schedule_interview` is an unconditional UPDATE: whatever
the prior state of the row with the given id — shortlisted or not — the
operation succeeds and that row ends with `interview_scheduled = true` and
the given `interview_date`; the shortlist-first discipline exists only in
the UI flow, not in the operation. -/
theorem schedule_interview_ignores_shortlist_state (db : DB) (mid : Nat) (d : String) :
    ∀ m ∈ (schedule_interview db mid d).matches,
      m.id = mid → m.interview_scheduled = true ∧ m.interview_date = some d := by
  intro m hm hmid
  simp only [schedule_interview, List.mem_map] at hm
  rcases hm with ⟨m0, _, rfl⟩
  by_cases hb : (m0.id == mid) = true
  · simp [hb]
  · rw [if_neg hb] at hmid ⊢
    exact absurd (beq_iff_eq.mpr hmid) hb

/-- Witness for the amended C3 theorem at a concrete store: the Match of
`exDB3` (not shortlisted) is scheduled anyway. -/
theorem schedule_interview_ignores_shortlist_state_witness :
    ({ id := 1, job_id := 1, candidate_id := 1, match_score := Json.num 80,
       is_shortlisted := false, interview_scheduled := true,
       interview_date := some "2026-01-15 10:00:00", feedback := none,
       created_at := 2 } : MatchRow).interview_scheduled = true
    ∧ ({ id := 1, job_id := 1, candidate_id := 1, match_score := Json.num 80,
         is_shortlisted := false, interview_scheduled := true,
         interview_date := some "2026-01-15 10:00:00", feedback := none,
         created_at := 2 } : MatchRow).interview_date = some "2026-01-15 10:00:00" :=
  schedule_interview_ignores_shortlist_state exDB3 1 "2026-01-15 10:00:00" _
    (List.mem_cons_self _ _) rfl

/-! ### C5 -/

/-- C5, counterexample: `update_shortlist_status` takes the target value as
an argument, so calling it with `false` on the shortlisted Match of `exDB5`
sets `is_shortlisted` back to `false` — an un-shortlist transition exists at
the store level. -/
theorem unshortlist_transition_exists :
    (exDB5.matches.map (fun m => m.is_shortlisted) = [true])
    ∧ ((update_shortlist_status exDB5 1 false).matches.map (fun m => m.is_shortlisted)
        = [false]) := ⟨rfl, rfl⟩

/-- C5, amended: `interview_scheduled`, once true, is never reset by any of
the three UPDATE operations (row-wise monotone), and `is_shortlisted` is
never reset by `schedule_interview`, `add_feedback`, or
`update_shortlist_status` called with `true`; but `update_shortlist_status`
called with `false` un-shortlists (the application only ever passes `true`). -/
theorem workflow_flags_monotone (db : DB) (mid : Nat) (b : Bool) (d f : String) :
    List.Forall₂ (fun m m' : MatchRow => m.interview_scheduled = true → m'.interview_scheduled = true)
      db.matches (update_shortlist_status db mid b).matches
    ∧ List.Forall₂ (fun m m' : MatchRow =>
        (m.interview_scheduled = true → m'.interview_scheduled = true)
        ∧ (m.is_shortlisted = true → m'.is_shortlisted = true))
      db.matches (schedule_interview db mid d).matches
    ∧ List.Forall₂ (fun m m' : MatchRow =>
        (m.interview_scheduled = true → m'.interview_scheduled = true)
        ∧ (m.is_shortlisted = true → m'.is_shortlisted = true))
      db.matches (add_feedback db mid f).matches
    ∧ List.Forall₂ (fun m m' : MatchRow => m.is_shortlisted = true → m'.is_shortlisted = true)
      db.matches (update_shortlist_status db mid true).matches := by
  refine ⟨?_, ?_, ?_, ?_⟩
  · exact forall₂_map_self _ _ _ (fun m _ => by by_cases h : (m.id == mid) = true <;> simp [h])
  · exact forall₂_map_self _ _ _ (fun m _ => by by_cases h : (m.id == mid) = true <;> simp [h])
  · exact forall₂_map_self _ _ _ (fun m _ => by by_cases h : (m.id == mid) = true <;> simp [h])
  · exact forall₂_map_self _ _ _ (fun m _ => by by_cases h : (m.id == mid) = true <;> simp [h])

/-! ### C4 -/

/-- The invariant claimed for every Match in the store:
`interview_scheduled` implies a non-null date and shortlisted, and the date
is non-null exactly when scheduled. -/
@[reducible] def interviewInvariant (db : DB) : Prop :=
  ∀ m ∈ db.matches,
    (m.interview_scheduled = true → m.interview_date.isSome ∧ m.is_shortlisted = true)
    ∧ (m.interview_date.isSome ↔ m.interview_scheduled = true)

/-- C4, counterexample: the invariant holds on `exDB3` (one unscheduled,
unshortlisted Match) but is broken by the store operation
`schedule_interview`, which yields a Match with `interview_scheduled = true`
and `is_shortlisted = false`.  So the invariant is not preserved by every
store operation. -/
theorem interview_invariant_broken_by_schedule :
    interviewInvariant exDB3
    ∧ ¬ interviewInvariant (schedule_interview exDB3 1 "2026-01-15 10:00:00") := by
  constructor
  · decide
  · decide

/-- The half of the claimed invariant that the operations do preserve:
`interview_date` is non-null exactly when `interview_scheduled` is true. -/
@[reducible] def dateIffScheduled (db : DB) : Prop :=
  ∀ m ∈ db.matches, m.interview_date.isSome ↔ m.interview_scheduled = true

/-- C4, amended: every store operation preserves `interview_date` non-null
iff `interview_scheduled = true` (inserts start with both unset,
`schedule_interview` sets both together, the other updates touch neither);
but the `is_shortlisted` half of the claimed invariant fails, since
`schedule_interview` schedules rows regardless of their shortlist state. -/
theorem date_iff_scheduled_preserved (db : DB) (h : dateIffScheduled db)
    (t dsc : String) (s : Option Json) (nm em ph : Option String) (cv : String)
    (ed : Option Json) (j c : Nat) (v : Json) (mid : Nat) (b : Bool) (idate fb : String) :
    dateIffScheduled (add_job db t dsc s).2
    ∧ dateIffScheduled (add_candidate db nm cv ed em ph).2
    ∧ dateIffScheduled (add_match db j c v).2
    ∧ dateIffScheduled (update_shortlist_status db mid b)
    ∧ dateIffScheduled (schedule_interview db mid idate)
    ∧ dateIffScheduled (add_feedback db mid fb) := by
  refine ⟨h, h, ?_, ?_, ?_, ?_⟩
  · intro m hm
    rcases List.mem_append.mp hm with hm | hm
    · exact h m hm
    · rcases List.mem_singleton.mp hm with rfl
      simp
  · intro m hm
    rcases List.mem_map.mp hm with ⟨m0, hm0, rfl⟩
    by_cases hb : (m0.id == mid) = true
    · simpa [hb] using h m0 hm0
    · simpa [hb] using h m0 hm0
  · intro m hm
    rcases List.mem_map.mp hm with ⟨m0, hm0, rfl⟩
    by_cases hb : (m0.id == mid) = true
    · simp [hb]
    · simpa [hb] using h m0 hm0
  · intro m hm
    rcases List.mem_map.mp hm with ⟨m0, hm0, rfl⟩
    by_cases hb : (m0.id == mid) = true
    · simpa [hb] using h m0 hm0
    · simpa [hb] using h m0 hm0

/-- Witness for the amended C4 theorem at the concrete store `exDB3`. -/
theorem date_iff_scheduled_preserved_witness :
    dateIffScheduled (add_job exDB3 "t" "d" none).2
    ∧ dateIffScheduled (add_candidate exDB3 none "p.pdf" none none none).2
    ∧ dateIffScheduled (add_match exDB3 1 1 (Json.num 50)).2
    ∧ dateIffScheduled (update_shortlist_status exDB3 1 true)
    ∧ dateIffScheduled (schedule_interview exDB3 1 "2026-01-15 10:00:00")
    ∧ dateIffScheduled (add_feedback exDB3 1 "ok") :=
  date_iff_scheduled_preserved exDB3 (by decide) "t" "d" none none none none "p.pdf"
    none 1 1 (Json.num 50) 1 true "2026-01-15 10:00:00" "ok"

/-! ### C9 -/

/-- Store for the listing-order claim: jobs 1 and 2, candidate 1, and two
Matches for candidate 1 — Match 1 (job 1, score 90, older) and Match 2
(job 2, score 10, newer). -/
def exDB9 : DB :=
  (add_match (add_match (add_candidate
      (add_job (add_job DB.empty "Job A" "da" (some exSummary)).2
        "Job B" "dbb" (some exSummary)).2
      (some "Carol Ray") "data/cvs/carol.pdf" (some exProfile) none none).2
    1 1 (Json.num 90)).2 2 1 (Json.num 10)).2

/-- C9, counterexample: filtering by candidate id only, `get_matches` orders
by descending `match_score` (`ORDER BY m.match_score DESC` in the
candidate-only branch), not by descending `created_at`: the returned
`created_at` sequence is ascending `[3, 4]`. -/
theorem candidate_filter_not_ordered_by_created_at :
    ((get_matches exDB9 none (some 1)).map (fun m => m.created_at) = [3, 4])
    ∧ ¬ ((get_matches exDB9 none (some 1)).Pairwise
          (fun a b => b.created_at ≤ a.created_at)) := by
  refine ⟨rfl, ?_⟩
  decide

/-- C9, amended: results filtered by a single job id are ordered by
descending `match_score`; results filtered by a single candidate id are
ALSO ordered by descending `match_score`; only the unfiltered listing is
ordered by descending `created_at` (and the branch with both ids has no
ORDER BY at all). -/
theorem get_matches_ordering (db : DB) (jid cid : Nat) (hj : jid ≠ 0) (hc : cid ≠ 0) :
    ((get_matches db (some jid) none).Pairwise
        (fun a b => sqliteLe b.match_score a.match_score = true))
    ∧ ((get_matches db none (some cid)).Pairwise
        (fun a b => sqliteLe b.match_score a.match_score = true))
    ∧ ((get_matches db none none).Pairwise (fun a b => b.created_at ≤ a.created_at)) := by
  have hjb : (jid != 0) = true := by simpa [bne_iff_ne] using hj
  have hcb : (cid != 0) = true := by simpa [bne_iff_ne] using hc
  have htot : ∀ a b : MatchRow, sqliteLe b.match_score a.match_score = true
      ∨ sqliteLe a.match_score b.match_score = true :=
    fun a b => sqliteLe_total b.match_score a.match_score
  have htrans : ∀ a b c : MatchRow, sqliteLe b.match_score a.match_score = true
      → sqliteLe c.match_score b.match_score = true
      → sqliteLe c.match_score a.match_score = true :=
    fun a b c h1 h2 => sqliteLe_trans c.match_score b.match_score a.match_score h2 h1
  refine ⟨?_, ?_, ?_⟩
  · simp only [get_matches, truthyId, hjb, Bool.true_and, Bool.and_false, if_false,
      Bool.false_eq_true, if_true]
    exact pairwise_sortBy _ htot (fun a b c h1 h2 => htrans a b c h1 h2) _
  · simp only [get_matches, truthyId, hcb, Bool.false_and, if_false, Bool.false_eq_true,
      if_true]
    exact pairwise_sortBy _ htot (fun a b c h1 h2 => htrans a b c h1 h2) _
  · simp only [get_matches, truthyId, Bool.false_and, if_false, Bool.false_eq_true]
    refine List.Pairwise.imp ?_
      (pairwise_sortBy (fun a b : MatchRow => decide (b.created_at ≤ a.created_at))
        (fun a b => by rcases Nat.le_total b.created_at a.created_at with h | h
                       · exact Or.inl (decide_eq_true h)
                       · exact Or.inr (decide_eq_true h))
        (fun a b c h1 h2 => decide_eq_true
          (Nat.le_trans (of_decide_eq_true h2) (of_decide_eq_true h1))) _)
    exact fun h => of_decide_eq_true h

/-- Witness for the amended C9 theorem at the concrete store `exDB9`. -/
theorem get_matches_ordering_witness :
    ((get_matches exDB9 none (some 1)).Pairwise
        (fun a b => sqliteLe b.match_score a.match_score = true))
    ∧ ((get_matches exDB9 none none).Pairwise (fun a b => b.created_at ≤ a.created_at)) :=
  ⟨(get_matches_ordering exDB9 1 1 (by decide) (by decide)).2.1,
   (get_matches_ordering exDB9 1 1 (by decide) (by decide)).2.2⟩

/-! ### C10 -/

/-- C10: when no Match row has the given id, the three targeted updates
(`update_shortlist_status`, `schedule_interview`, `add_feedback`) are exact
no-ops: the UPDATE affects zero rows, no error of any kind is raised (the
operations are total), and the store is returned entirely unchanged. -/
theorem missing_match_id_updates_are_noops (db : DB) (mid : Nat) (b : Bool) (d f : String)
    (h : ∀ m ∈ db.matches, m.id ≠ mid) :
    update_shortlist_status db mid b = db
    ∧ schedule_interview db mid d = db
    ∧ add_feedback db mid f = db := by
  have hid : ∀ (g : MatchRow → MatchRow),
      db.matches.map (fun m => if m.id == mid then g m else m) = db.matches := by
    intro g
    refine map_eq_self_of_id _ _ (fun m hm => ?_)
    have : (m.id == mid) = false := by
      simpa [beq_eq_false_iff_ne] using h m hm
    simp [this]
  refine ⟨?_, ?_, ?_⟩
  · show { db with «matches» := _ } = db
    rw [hid]
  · show { db with «matches» := _ } = db
    rw [hid]
  · show { db with «matches» := _ } = db
    rw [hid]

/-- Witness for C10 at the concrete store `exDB3` (whose only Match has
id 1) and the absent id 2. -/
theorem missing_match_id_updates_are_noops_witness :
    update_shortlist_status exDB3 2 true = exDB3
    ∧ schedule_interview exDB3 2 "2026-02-02 09:00:00" = exDB3
    ∧ add_feedback exDB3 2 "note" = exDB3 :=
  missing_match_id_updates_are_noops exDB3 2 true "2026-02-02 09:00:00" "note" (by decide)

/-! ### C7 -/

/-- Extraction-collaborator oracle used by the CV fixtures: every path
yields the same well-formed contact fields and structured profile. -/
def exInfo : String → CvInfo := fun _ =>
  { name := some "Alice Doe", email := some "alice@example.com", phone := none,
    extracted := some exProfile }

/-- C7, counterexample: the single-file upload branch performs no
existing-`cv_path` check, so uploading the same PDF twice inserts two
candidate rows with the same source path — more than one profile for one
distinct source document. -/
theorem upload_path_allows_duplicate_candidates :
    (((upload_cv exInfo (upload_cv exInfo DB.empty "data/cvs/alice.pdf")
          "data/cvs/alice.pdf").candidates.filter
        (fun c => c.cv_path == "data/cvs/alice.pdf")).length = 2)
    ∧ ¬ (((upload_cv exInfo (upload_cv exInfo DB.empty "data/cvs/alice.pdf")
          "data/cvs/alice.pdf").candidates.filter
        (fun c => c.cv_path == "data/cvs/alice.pdf")).length ≤ 1) := by
  exact ⟨rfl, by decide⟩

theorem candidateStep_count_le_one (info : String → CvInfo) (db : DB) (path p : String)
    (h : (db.candidates.filter (fun c => c.cv_path == p)).length ≤ 1) :
    ((candidateStep info db path).candidates.filter (fun c => c.cv_path == p)).length ≤ 1 := by
  unfold candidateStep
  cases hany : (get_candidates db).any (fun c => c.cv_path == path) with
  | true => simpa [hany] using h
  | false =>
    simp only [hany, Bool.false_eq_true, if_false, add_candidate, List.filter_append,
      List.length_append]
    by_cases hp : (path == p) = true
    · have hpe : path = p := by simpa using hp
      have hzero : db.candidates.filter (fun c => c.cv_path == p) = [] := by
        refine List.filter_eq_nil_iff.mpr (fun c hc => ?_)
        have hmem : c ∈ get_candidates db := by
          simpa [get_candidates, mem_sortBy] using hc
        intro hcp
        rw [← hpe] at hcp
        have hc' : (fun x : CandidateRow => x.cv_path == path) c = true := hcp
        have hx : (get_candidates db).any (fun x => x.cv_path == path) = true :=
          List.any_eq_true.mpr ⟨c, hmem, hc'⟩
        rw [hany] at hx
        exact Bool.false_ne_true hx
      simp [hzero, hp]
    · have hpf : (path == p) = false := by simpa using hp
      simpa [hpf] using h

theorem foldl_candidateStep_count_le_one (info : String → CvInfo) (p : String) :
    ∀ (files : List String) (db : DB),
      (db.candidates.filter (fun c => c.cv_path == p)).length ≤ 1 →
      ((files.foldl (candidateStep info) db).candidates.filter
          (fun c => c.cv_path == p)).length ≤ 1 := by
  intro files
  induction files with
  | nil => exact fun db h => h
  | cons f fs ih =>
    intro db h
    exact ih (candidateStep info db f) (candidateStep_count_le_one info db f p h)

/-- C7, amended: the batch CVs-folder loop does deduplicate by source path —
if the store holds at most one candidate per `cv_path`, so does the store
after `process_candidate_cvs` run on any file list (in particular,
processing the same resume twice adds nothing the second time); the
single-file upload branch, however, inserts unconditionally and can create
duplicates. -/
theorem cvs_folder_loop_deduplicates (info : String → CvInfo) (files : List String)
    (db : DB) (p : String)
    (h : (db.candidates.filter (fun c => c.cv_path == p)).length ≤ 1) :
    ((process_candidate_cvs info files db).candidates.filter
        (fun c => c.cv_path == p)).length ≤ 1 := by
  unfold process_candidate_cvs
  cases hf : files.isEmpty with
  | true => simpa [hf] using h
  | false =>
    simp only [hf, Bool.false_eq_true, if_false]
    exact foldl_candidateStep_count_le_one info p files db h

/-- Witness for the amended C7 theorem: processing the same resume twice in
one batch run over the empty store leaves a single row for its path. -/
theorem cvs_folder_loop_deduplicates_witness :
    ((process_candidate_cvs exInfo ["data/cvs/alice.pdf", "data/cvs/alice.pdf"]
        DB.empty).candidates.filter
      (fun c => c.cv_path == "data/cvs/alice.pdf")).length ≤ 1 :=
  cvs_folder_loop_deduplicates exInfo ["data/cvs/alice.pdf", "data/cvs/alice.pdf"]
    DB.empty "data/cvs/alice.pdf" (by decide)

/-! ### C8 -/

/-- C8: if every one of the `max_retries = 3` completion attempts is invalid
(raises, is unparseable, or misses a required field such as `subject`), the
generator makes exactly 3 attempts, each with the same prompt, and returns
`{'success': False, 'error': ..., 'email_content': None}`; and
`generate_interview_email` then returns that failure having made zero calls
to the email transport, whatever the recipient. -/
theorem email_generation_fails_after_three_attempts
    (responses : Nat → Except String JObj) (prompt : String)
    (h : ∀ i, i < max_retries → ∃ e, attemptOutcome (responses i) = Except.error e) :
    ((generate_email_template responses prompt).1.success = false)
    ∧ (generate_email_template responses prompt).1.error.isSome
    ∧ ((generate_email_template responses prompt).1.email_content = none)
    ∧ ((generate_email_template responses prompt).2 = [prompt, prompt, prompt])
    ∧ ∀ (ce : Option String) (tr : TransportOutcome),
        (generate_interview_email responses prompt ce tr).1.success = false
        ∧ (generate_interview_email responses prompt ce tr).2 = 0 := by
  obtain ⟨e0, h0⟩ := h 0 (by decide)
  obtain ⟨e1, h1⟩ := h 1 (by decide)
  obtain ⟨e2, h2⟩ := h 2 (by decide)
  have hg : generate_email_template responses prompt
      = ({ success := false, error := some e2, email_content := none },
         [prompt, prompt, prompt]) := by
    simp [generate_email_template, max_retries, genAttempts, h0, h1, h2]
  refine ⟨by rw [hg], by rw [hg]; rfl, by rw [hg], by rw [hg], ?_⟩
  intro ce tr
  constructor
  · simp [generate_interview_email, hg]
  · simp [generate_interview_email, hg]

/-- Completion oracle whose response always parses but always misses the
required `subject` field. -/
def exBadResponses : Nat → Except String JObj :=
  fun _ => Except.ok [("body", Json.str "Dear Alice")]

/-- Witness for C8 with a concrete always-invalid oracle and recipient. -/
theorem email_generation_fails_after_three_attempts_witness :
    ((generate_email_template exBadResponses "interview invitation prompt").1.success = false)
    ∧ ((generate_email_template exBadResponses "interview invitation prompt").2
        = ["interview invitation prompt", "interview invitation prompt",
           "interview invitation prompt"])
    ∧ ((generate_interview_email exBadResponses "interview invitation prompt"
          (some "alice@example.com") TransportOutcome.ok).2 = 0) := by
  have h := email_generation_fails_after_three_attempts exBadResponses
    "interview invitation prompt"
    (fun i _ => ⟨"Missing required email fields", rfl⟩)
  exact ⟨h.1, h.2.2.2.1, (h.2.2.2.2 (some "alice@example.com") TransportOutcome.ok).2⟩

/-! ### C6 -/

/-- The stored Match rows of one (job, candidate) pair. -/
def pairMatches (db : DB) (jid cid : Nat) : List MatchRow :=
  db.matches.filter (fun m => m.job_id == jid && m.candidate_id == cid)

/-- With both ids truthy, `get_matches` is exactly the pair filter (the
branch the batch's existence check takes; ids are positive in every store
the app builds). -/
theorem get_matches_both (db : DB) (jid cid : Nat) (hj : jid ≠ 0) (hc : cid ≠ 0) :
    get_matches db (some jid) (some cid) = pairMatches db jid cid := by
  have hjb : (jid != 0) = true := by simpa [bne_iff_ne] using hj
  have hcb : (cid != 0) = true := by simpa [bne_iff_ne] using hc
  simp only [get_matches, truthyId, hjb, hcb, Bool.and_self, if_true]
  rfl

theorem pairMatches_add_match (db : DB) (j c : Nat) (v : Json) (jid cid : Nat) :
    pairMatches (add_match db j c v).2 jid cid
      = pairMatches db jid cid
        ++ (if (j == jid && c == cid) = true then
              [{ id := db.next_match_id, job_id := j, candidate_id := c, match_score := v,
                 is_shortlisted := false, interview_scheduled := false,
                 interview_date := none, feedback := none, created_at := db.clock }]
            else []) := by
  simp only [pairMatches, add_match, List.filter_append]
  congr 1
  by_cases h : (j == jid && c == cid) = true <;> simp [List.filter_cons, h]

/-- Master case analysis of one inner-loop step: it either leaves the rows
of the observed pair exactly as they were, or — only when the pair had no
row — adds a single row for it. -/
theorem pairMatches_matchPairStep (scorer : Scorer) (job : JobRow) (db : DB)
    (cand : CandidateRow) (jid cid : Nat) (hj : jid ≠ 0) (hc : cid ≠ 0) :
    pairMatches (matchPairStep scorer job db cand) jid cid = pairMatches db jid cid
    ∨ (pairMatches db jid cid = []
       ∧ ∃ r, pairMatches (matchPairStep scorer job db cand) jid cid = [r]) := by
  cases hex : (get_matches db (some job.id) (some cand.id)).isEmpty with
  | false =>
    left
    have hred : matchPairStep scorer job db cand = db := by
      unfold matchPairStep; simp [hex]
    rw [hred]
  | true =>
    cases hcd : cand.extracted_data with
    | none =>
      left
      have hred : matchPairStep scorer job db cand = db := by
        unfold matchPairStep; simp [hex, hcd]
      rw [hred]
    | some cdata =>
      cases ht : jsonTruthy cdata with
      | false =>
        left
        have hred : matchPairStep scorer job db cand = db := by
          unfold matchPairStep; simp [hex, hcd, ht]
        rw [hred]
      | true =>
        cases hguard : (!(calculate_match_score (scorer job.id cand.id)).isEmpty
            && hasKey (calculate_match_score (scorer job.id cand.id)) "match_score") with
        | false =>
          left
          have hred : matchPairStep scorer job db cand = db := by
            unfold matchPairStep; simp [hex, hcd, ht, hguard]
          rw [hred]
        | true =>
          cases hlk : jlookup (calculate_match_score (scorer job.id cand.id)) "match_score" with
          | none =>
            left
            have hred : matchPairStep scorer job db cand = db := by
              unfold matchPairStep; simp [hex, hcd, ht, hguard, hlk]
            rw [hred]
          | some v =>
            have hstep : matchPairStep scorer job db cand = (add_match db job.id cand.id v).2 := by
              unfold matchPairStep
              simp [hex, hcd, ht, hguard, hlk]
            by_cases hpair : (job.id == jid && cand.id == cid) = true
            · right
              have hpair' : job.id = jid ∧ cand.id = cid := by simpa using hpair
              have hemp : pairMatches db jid cid = [] := by
                rw [hpair'.1, hpair'.2] at hex
                rw [get_matches_both db jid cid hj hc] at hex
                simpa using hex
              refine ⟨hemp, ?_⟩
              refine ⟨{ id := db.next_match_id, job_id := job.id, candidate_id := cand.id,
                        match_score := v, is_shortlisted := false,
                        interview_scheduled := false, interview_date := none,
                        feedback := none, created_at := db.clock }, ?_⟩
              rw [hstep, pairMatches_add_match, hemp]
              simp [hpair]
            · left
              rw [hstep, pairMatches_add_match]
              simp [hpair]

theorem pairMatches_matchPairStep_stable (scorer : Scorer) (job : JobRow) (db : DB)
    (cand : CandidateRow) (jid cid : Nat) (hj : jid ≠ 0) (hc : cid ≠ 0)
    (hne : pairMatches db jid cid ≠ []) :
    pairMatches (matchPairStep scorer job db cand) jid cid = pairMatches db jid cid := by
  rcases pairMatches_matchPairStep scorer job db cand jid cid hj hc with h | ⟨h0, _⟩
  · exact h
  · exact absurd h0 hne

theorem pairMatches_matchPairStep_le_one (scorer : Scorer) (job : JobRow) (db : DB)
    (cand : CandidateRow) (jid cid : Nat) (hj : jid ≠ 0) (hc : cid ≠ 0)
    (h : (pairMatches db jid cid).length ≤ 1) :
    (pairMatches (matchPairStep scorer job db cand) jid cid).length ≤ 1 := by
  rcases pairMatches_matchPairStep scorer job db cand jid cid hj hc with heq | ⟨_, r, hr⟩
  · rw [heq]; exact h
  · rw [hr]; simp

theorem pairMatches_foldl_cands_stable (scorer : Scorer) (job : JobRow) (jid cid : Nat)
    (hj : jid ≠ 0) (hc : cid ≠ 0) :
    ∀ (cands : List CandidateRow) (db : DB), pairMatches db jid cid ≠ [] →
      pairMatches (cands.foldl (matchPairStep scorer job) db) jid cid
        = pairMatches db jid cid := by
  intro cands
  induction cands with
  | nil => exact fun db _ => rfl
  | cons cnd cs ih =>
    intro db hne
    rw [List.foldl_cons]
    have hstep := pairMatches_matchPairStep_stable scorer job db cnd jid cid hj hc hne
    rw [ih (matchPairStep scorer job db cnd) (by rw [hstep]; exact hne), hstep]

theorem pairMatches_foldl_cands_le_one (scorer : Scorer) (job : JobRow) (jid cid : Nat)
    (hj : jid ≠ 0) (hc : cid ≠ 0) :
    ∀ (cands : List CandidateRow) (db : DB), (pairMatches db jid cid).length ≤ 1 →
      (pairMatches (cands.foldl (matchPairStep scorer job) db) jid cid).length ≤ 1 := by
  intro cands
  induction cands with
  | nil => exact fun db h => h
  | cons cnd cs ih =>
    intro db h
    rw [List.foldl_cons]
    exact ih _ (pairMatches_matchPairStep_le_one scorer job db cnd jid cid hj hc h)

theorem pairMatches_matchJobStep_stable (scorer : Scorer) (cands : List CandidateRow)
    (db : DB) (job : JobRow) (jid cid : Nat) (hj : jid ≠ 0) (hc : cid ≠ 0)
    (hne : pairMatches db jid cid ≠ []) :
    pairMatches (matchJobStep scorer cands db job) jid cid = pairMatches db jid cid := by
  unfold matchJobStep
  cases hs : job.summary with
  | none => rfl
  | some s =>
    cases ht : jsonTruthy s with
    | false => simp [ht]
    | true =>
      simp only [ht, Bool.not_true, Bool.false_eq_true, if_false]
      exact pairMatches_foldl_cands_stable scorer job jid cid hj hc cands db hne

theorem pairMatches_matchJobStep_le_one (scorer : Scorer) (cands : List CandidateRow)
    (db : DB) (job : JobRow) (jid cid : Nat) (hj : jid ≠ 0) (hc : cid ≠ 0)
    (h : (pairMatches db jid cid).length ≤ 1) :
    (pairMatches (matchJobStep scorer cands db job) jid cid).length ≤ 1 := by
  unfold matchJobStep
  cases hs : job.summary with
  | none => exact h
  | some s =>
    cases ht : jsonTruthy s with
    | false => simpa [ht] using h
    | true =>
      simp only [ht, Bool.not_true, Bool.false_eq_true, if_false]
      exact pairMatches_foldl_cands_le_one scorer job jid cid hj hc cands db h

theorem pairMatches_foldl_jobs_stable (scorer : Scorer) (cands : List CandidateRow)
    (jid cid : Nat) (hj : jid ≠ 0) (hc : cid ≠ 0) :
    ∀ (jobsl : List JobRow) (db : DB), pairMatches db jid cid ≠ [] →
      pairMatches (jobsl.foldl (matchJobStep scorer cands) db) jid cid
        = pairMatches db jid cid := by
  intro jobsl
  induction jobsl with
  | nil => exact fun db _ => rfl
  | cons jb js ih =>
    intro db hne
    rw [List.foldl_cons]
    have hstep := pairMatches_matchJobStep_stable scorer cands db jb jid cid hj hc hne
    rw [ih (matchJobStep scorer cands db jb) (by rw [hstep]; exact hne), hstep]

theorem pairMatches_foldl_jobs_le_one (scorer : Scorer) (cands : List CandidateRow)
    (jid cid : Nat) (hj : jid ≠ 0) (hc : cid ≠ 0) :
    ∀ (jobsl : List JobRow) (db : DB), (pairMatches db jid cid).length ≤ 1 →
      (pairMatches (jobsl.foldl (matchJobStep scorer cands) db) jid cid).length ≤ 1 := by
  intro jobsl
  induction jobsl with
  | nil => exact fun db h => h
  | cons jb js ih =>
    intro db h
    rw [List.foldl_cons]
    exact ih _ (pairMatches_matchJobStep_le_one scorer cands db jb jid cid hj hc h)

/-- A batch run never touches the rows of a pair that already has one. -/
theorem pairMatches_batch_stable (scorer : Scorer) (db : DB) (jid cid : Nat)
    (hj : jid ≠ 0) (hc : cid ≠ 0) (hne : pairMatches db jid cid ≠ []) :
    pairMatches (match_candidates_to_jobs scorer db) jid cid = pairMatches db jid cid := by
  unfold match_candidates_to_jobs
  cases hg : ((get_jobs db).isEmpty || (get_candidates db).isEmpty) with
  | true => simp [hg]
  | false =>
    simp only [hg, Bool.false_eq_true, if_false]
    exact pairMatches_foldl_jobs_stable scorer (get_candidates db) jid cid hj hc
      (get_jobs db) db hne

theorem pairMatches_batch_le_one (scorer : Scorer) (db : DB) (jid cid : Nat)
    (hj : jid ≠ 0) (hc : cid ≠ 0) (h : (pairMatches db jid cid).length ≤ 1) :
    (pairMatches (match_candidates_to_jobs scorer db) jid cid).length ≤ 1 := by
  unfold match_candidates_to_jobs
  cases hg : ((get_jobs db).isEmpty || (get_candidates db).isEmpty) with
  | true => simpa [hg] using h
  | false =>
    simp only [hg, Bool.false_eq_true, if_false]
    exact pairMatches_foldl_jobs_le_one scorer (get_candidates db) jid cid hj hc
      (get_jobs db) db h

/-- Processing the observed (job, candidate) pair leaves at least one row
for it: either one already existed, or the step inserts one (the candidate
has truthy structured data and the scoring result passes the guard). -/
theorem pairMatches_matchPairStep_hits (scorer : Scorer) (J : JobRow) (db : DB)
    (C : CandidateRow) (hj : J.id ≠ 0) (hc : C.id ≠ 0)
    (hd : ∃ t, C.extracted_data = some t ∧ jsonTruthy t = true)
    (hmr1 : calculate_match_score (scorer J.id C.id) ≠ [])
    (hmr2 : hasKey (calculate_match_score (scorer J.id C.id)) "match_score" = true) :
    pairMatches (matchPairStep scorer J db C) J.id C.id ≠ [] := by
  cases hex : (get_matches db (some J.id) (some C.id)).isEmpty with
  | false =>
    have hred : matchPairStep scorer J db C = db := by
      unfold matchPairStep; simp [hex]
    rw [hred]
    rw [get_matches_both db J.id C.id hj hc] at hex
    intro hnil
    rw [hnil] at hex
    simp at hex
  | true =>
    obtain ⟨t, hdt, htt⟩ := hd
    have hie : (calculate_match_score (scorer J.id C.id)).isEmpty = false := by
      cases hl : calculate_match_score (scorer J.id C.id) with
      | nil => exact absurd hl hmr1
      | cons x xs => rfl
    obtain ⟨v, hv⟩ := hasKey_jlookup _ _ hmr2
    have hred : matchPairStep scorer J db C = (add_match db J.id C.id v).2 := by
      unfold matchPairStep
      simp [hex, hdt, htt, hie, hmr2, hv]
    rw [hred, pairMatches_add_match]
    simp

/-- First run of the batch over a store containing a summarized job `J` and
a structured candidate `C`: afterwards the pair has at least one Match row. -/
theorem pairMatches_batch_hits (scorer : Scorer) (db : DB) (J : JobRow) (C : CandidateRow)
    (hJ : J ∈ db.jobs) (hC : C ∈ db.candidates) (hj : J.id ≠ 0) (hc : C.id ≠ 0)
    (hs : ∃ s, J.summary = some s ∧ jsonTruthy s = true)
    (hd : ∃ t, C.extracted_data = some t ∧ jsonTruthy t = true)
    (hmr1 : calculate_match_score (scorer J.id C.id) ≠ [])
    (hmr2 : hasKey (calculate_match_score (scorer J.id C.id)) "match_score" = true) :
    pairMatches (match_candidates_to_jobs scorer db) J.id C.id ≠ [] := by
  have hJg : J ∈ get_jobs db := (mem_sortBy _ _ _).mpr hJ
  have hCg : C ∈ get_candidates db := (mem_sortBy _ _ _).mpr hC
  have hjne : (get_jobs db).isEmpty = false := by
    cases hl : get_jobs db with
    | nil => rw [hl] at hJg; cases hJg
    | cons x xs => rfl
  have hcne : (get_candidates db).isEmpty = false := by
    cases hl : get_candidates db with
    | nil => rw [hl] at hCg; cases hCg
    | cons x xs => rfl
  unfold match_candidates_to_jobs
  simp only [hjne, hcne, Bool.or_self, Bool.false_eq_true, if_false]
  obtain ⟨c1, c2, hcs⟩ := List.append_of_mem hCg
  obtain ⟨l1, l2, hsplit⟩ := List.append_of_mem hJg
  rw [hsplit, hcs, List.foldl_append, List.foldl_cons]
  have hjred : ∀ dbx : DB, matchJobStep scorer (c1 ++ C :: c2) dbx J
      = (c1 ++ C :: c2).foldl (matchPairStep scorer J) dbx := by
    intro dbx
    obtain ⟨s, hss, hst⟩ := hs
    unfold matchJobStep
    rw [hss]
    simp [hst]
  rw [hjred, List.foldl_append, List.foldl_cons]
  have h2 := pairMatches_matchPairStep_hits scorer J
    (c1.foldl (matchPairStep scorer J) (l1.foldl (matchJobStep scorer (c1 ++ C :: c2)) db)) C
    hj hc hd hmr1 hmr2
  have h3 : pairMatches
      (c2.foldl (matchPairStep scorer J)
        (matchPairStep scorer J
          (c1.foldl (matchPairStep scorer J)
            (l1.foldl (matchJobStep scorer (c1 ++ C :: c2)) db)) C)) J.id C.id ≠ [] := by
    rw [pairMatches_foldl_cands_stable scorer J J.id C.id hj hc c2 _ h2]
    exact h2
  rw [pairMatches_foldl_jobs_stable scorer (c1 ++ C :: c2) J.id C.id hj hc l2 _ h3]
  exact h3

/-- C6: on any store with no Match yet for a pair (J, C) whose job has a
truthy summary and whose candidate has truthy structured data, and whose
first-run scoring response passes the persistence guard, running the batch
twice leaves exactly one Match row for the pair, and the second run performs
no insert for it (its rows are exactly those left by the first run),
whatever the second run's scoring oracle does. -/
theorem batch_matching_idempotent (db : DB) (scorer1 scorer2 : Scorer)
    (J : JobRow) (C : CandidateRow)
    (hJ : J ∈ db.jobs) (hC : C ∈ db.candidates) (hj : J.id ≠ 0) (hc : C.id ≠ 0)
    (hs : ∃ s, J.summary = some s ∧ jsonTruthy s = true)
    (hd : ∃ t, C.extracted_data = some t ∧ jsonTruthy t = true)
    (h0 : pairMatches db J.id C.id = [])
    (hmr1 : calculate_match_score (scorer1 J.id C.id) ≠ [])
    (hmr2 : hasKey (calculate_match_score (scorer1 J.id C.id)) "match_score" = true) :
    ((pairMatches (match_candidates_to_jobs scorer2 (match_candidates_to_jobs scorer1 db))
        J.id C.id).length = 1)
    ∧ (pairMatches (match_candidates_to_jobs scorer2 (match_candidates_to_jobs scorer1 db))
          J.id C.id
        = pairMatches (match_candidates_to_jobs scorer1 db) J.id C.id) := by
  have hne1 : pairMatches (match_candidates_to_jobs scorer1 db) J.id C.id ≠ [] :=
    pairMatches_batch_hits scorer1 db J C hJ hC hj hc hs hd hmr1 hmr2
  have hle1 : (pairMatches (match_candidates_to_jobs scorer1 db) J.id C.id).length ≤ 1 :=
    pairMatches_batch_le_one scorer1 db J.id C.id hj hc (by rw [h0]; exact Nat.zero_le 1)
  have heq2 : pairMatches (match_candidates_to_jobs scorer2 (match_candidates_to_jobs scorer1 db))
      J.id C.id = pairMatches (match_candidates_to_jobs scorer1 db) J.id C.id :=
    pairMatches_batch_stable scorer2 (match_candidates_to_jobs scorer1 db) J.id C.id hj hc hne1
  refine ⟨?_, heq2⟩
  rw [heq2]
  have hpos : 0 < (pairMatches (match_candidates_to_jobs scorer1 db) J.id C.id).length :=
    List.length_pos.mpr hne1
  omega

/-- Witness for C6 at the concrete store `exDB1` (one summarized job, one
structured candidate, no matches), a first-run oracle that returns a score,
and a second-run oracle that always raises. -/
theorem batch_matching_idempotent_witness :
    ((pairMatches (match_candidates_to_jobs scorerRaise (match_candidates_to_jobs scorer137 exDB1))
        1 1).length = 1)
    ∧ (pairMatches (match_candidates_to_jobs scorerRaise (match_candidates_to_jobs scorer137 exDB1))
          1 1
        = pairMatches (match_candidates_to_jobs scorer137 exDB1) 1 1) := by
  have h := batch_matching_idempotent exDB1 scorer137 scorerRaise
    { id := 1, title := "Backend Engineer", description := "desc",
      summary := some exSummary, created_at := 0 }
    { id := 1, name := some "Alice Doe", email := some "alice@example.com", phone := none,
      cv_path := "data/cvs/alice.pdf", extracted_data := some exProfile, created_at := 1 }
    (List.mem_cons_self _ _) (List.mem_cons_self _ _)
    (by decide) (by decide)
    ⟨exSummary, rfl, rfl⟩ ⟨exProfile, rfl, rfl⟩
    rfl (List.cons_ne_nil _ _) rfl
  exact ⟨h.1, h.2⟩

end RecruitFlow
